import Mathlib

/-!
A shallow embedding of `src/main.rs` of the `ld46` prototype: the ECS
components and the one movement system, the scene stack with its
`Transition` handling, and the per-frame `update`/`draw` steps of
`GameState`.  Rust `i32` fields are modelled as `Int` (positions start at 0
and move by 1 per frame, so machine overflow is unreachable in this
program); the legion `World` is modelled as a list of entities, each an id
with its optional `Position` and `Health` components and its `Static` tag
(legion tags attach to entities just like the `world.insert((Static,), ...)`
call does, so the tag is a `Bool` on the entity).  Rendering calls
(`graphics::*`) have no observable effect on the modelled state and are
omitted; `window::quit` is modelled as a `quit` flag in the step result.
-/

/-- `struct Position { x: i32, y: i32 }`. -/
structure Position where
  x : Int
  y : Int
  deriving DecidableEq

/-- `struct Health { hp: i32, last_damaged_by: i32 }`. -/
structure Health where
  hp : Int
  last_damaged_by : Int
  deriving DecidableEq

/-- One ECS entity: its legion entity id plus its component records.
`isStatic` records whether the entity carries the `Static` tag. -/
structure Entity where
  id : Nat
  position : Option Position
  health : Option Health
  isStatic : Bool
  deriving DecidableEq

/-- The legion `World`: the collection of entities. -/
abbrev World := List Entity

/-- The body of the closure built in `simple_test_system`, applied to one
entity: the query `Write<Position>` visits every entity holding a
`Position` and runs `pos.x += 1; pos.y += 1`. -/
def moveStep (e : Entity) : Entity :=
  match e.position with
  | some p => { e with position := some { x := p.x + 1, y := p.y + 1 } }
  | none => e

/-- `simple_test_system` (the "MoveSystem"): one execution of the system on
a world. -/
def simple_test_system (w : World) : World :=
  w.map moveStep

/-- `create_systems`: the vector of systems (every other system is
commented out in the source). -/
def create_systems : List (World → World) :=
  [simple_test_system]

/-- `Executor::execute`: run each scheduled system in order on the world. -/
def Executor.execute (systems : List (World → World)) (w : World) : World :=
  systems.foldl (fun acc s => s acc) w

/-- Which of the two scene types a stack entry is (`TestScene` or
`TestScene2`). -/
inductive SceneKind
  | testScene
  | testScene2
  deriving DecidableEq

/-- A scene: its kind together with its two `Text` fields (only the string
contents are modelled; font and size have no effect on state). -/
structure Scene where
  kind : SceneKind
  title_text : String
  test_text : String
  deriving DecidableEq

/-- `enum Transition { None, Push(Box<dyn Scene>), Pop }`. -/
inductive Transition
  | none
  | push (s : Scene)
  | pop
  deriving DecidableEq

/-- The placeholder text both scene constructors put into `test_text`. -/
def placeholderText : String :=
  "This is some test text.\n\nYay Ludum Dare!\nThe 46th one!\nThat\x27s this one!\nWill I succeed?\nI better.\n\nHere we go..."

/-- The `TestScene` value built by `TestScene::new`. -/
def TestScene.init : Scene :=
  { kind := SceneKind.testScene, title_text := "Test Scene", test_text := placeholderText }

/-- The `TestScene2` value built by `TestScene2::new`. -/
def TestScene2.init : Scene :=
  { kind := SceneKind.testScene2, title_text := "Test Scene 2", test_text := placeholderText }

/-- The two `world.insert` calls of `TestScene::new`: 999 entities carrying
`Position { x: 0, y: 0 }` and `Health { hp: 0, last_damaged_by: 0 }`
(`(0..999)` yields 999 items), then 999 entities carrying
`Position { x: 0, y: 0 }` and tagged `Static`.  Fresh ids continue after
the entities already present. -/
def spawnTestEntities (w : World) : World :=
  w ++ (List.range 999).map (fun i =>
      { id := w.length + i
        position := some { x := 0, y := 0 }
        health := some { hp := 0, last_damaged_by := 0 }
        isStatic := false })
    ++ (List.range 999).map (fun i =>
      { id := w.length + 999 + i
        position := some { x := 0, y := 0 }
        health := Option.none
        isStatic := true })

/-- `TestScene::new`: spawns the test entities into the world and returns
the new scene. -/
def TestScene.new (w : World) : Scene × World :=
  (TestScene.init, spawnTestEntities w)

/-- `TestScene2::new`: builds the scene and leaves the world untouched. -/
def TestScene2.new (w : World) : Scene × World :=
  (TestScene2.init, w)

/-- One iteration of the entity loop in `TestScene::update`: reset
`test_text` once it exceeds 100 characters, then append a newline and the
entity's display string (legion's `Display` for an entity is a function of
the entity id; its exact format is external to this repository and does not
matter to any property below). -/
def appendEntityLine (t : String) (eid : Nat) : String :=
  let t1 := if t.length > 100 then "" else t
  t1 ++ "\n" ++ toString eid

/-- The whole entity loop of `TestScene::update`, folded over the ids that
`world.iter_entities()` yields. -/
def entityListText (t : String) (ids : List Nat) : String :=
  ids.foldl appendEntityLine t

/-- `Scene::update` for both scene types.  `spacePressed` models
`input::is_key_pressed(ctx, Key::Space)` this frame.  `TestScene` returns
early with `Push(TestScene2::new(..))` on space, otherwise rewrites its
`test_text` from the entity list; `TestScene2` returns
`Push(TestScene::new(..))` on space (which also spawns entities), otherwise
`None`. -/
def Scene.update (s : Scene) (spacePressed : Bool) (w : World) :
    Scene × World × Transition :=
  match s.kind with
  | SceneKind.testScene =>
    if spacePressed then
      (s, (TestScene2.new w).2, Transition.push (TestScene2.new w).1)
    else
      ({ s with test_text := entityListText s.test_text (w.map Entity.id) },
        w, Transition.none)
  | SceneKind.testScene2 =>
    if spacePressed then
      (s, (TestScene.new w).2, Transition.push (TestScene.new w).1)
    else
      (s, w, Transition.none)

/-- `Scene::draw` for both scene types: only issues graphics calls and
returns `Ok(Transition::None)` without touching the scene or the world. -/
def Scene.draw (s : Scene) (w : World) : Scene × World × Transition :=
  (s, w, Transition.none)

/-- `GameState`: the ECS world, the executor's scheduled systems, and the
scene stack (top of the stack = last element of the vector). -/
structure GameState where
  world : World
  systems : List (World → World)
  scenes : List Scene

/-- `GameState::new`: a fresh world populated by `TestScene::new`, an
executor built from an empty vector (`Executor::new(vec![])`), and a stack
holding the initial `TestScene`. -/
def GameState.new : GameState :=
  { world := (TestScene.new []).2
    systems := []
    scenes := [(TestScene.new []).1] }

/-- `GameState::set_systems`: replace the executor's systems.  (Defined in
the source but never called anywhere in it.) -/
def GameState.set_systems (g : GameState) (systems : List (World → World)) :
    GameState :=
  { g with systems := systems }

/-- The `match` arms applying a scene's returned `Transition` to the stack:
`None` leaves it, `Push(s)` is `scenes.push(s)`, `Pop` is `scenes.pop()`. -/
def applyTransition (t : Transition) (scenes : List Scene) : List Scene :=
  match t with
  | Transition.none => scenes
  | Transition.push s => scenes ++ [s]
  | Transition.pop => scenes.dropLast

/-- The outcome of one `State::update` or `State::draw` call: the new
state, whether `window::quit` was requested, and the stack indices of the
scenes whose callback (`update` resp. `draw`) was invoked during the
call. -/
structure StepResult where
  state : GameState
  quit : Bool
  callbackTargets : List Nat

/-- `<GameState as State>::update`: run the executor, then call `update` on
`scenes.last_mut()` alone and apply the transition it returns; with an
empty stack, request `window::quit`. -/
def GameState.update (g : GameState) (spacePressed : Bool) : StepResult :=
  let w1 := Executor.execute g.systems g.world
  match g.scenes.getLast? with
  | some top =>
    let r := top.update spacePressed w1
    { state := { g with
        world := r.2.1
        scenes := applyTransition r.2.2 (g.scenes.dropLast ++ [r.1]) }
      quit := false
      callbackTargets := [g.scenes.length - 1] }
  | Option.none =>
    { state := { g with world := w1 }, quit := true, callbackTargets := [] }

/-- `<GameState as State>::draw`: call `draw` on `scenes.last_mut()` alone
and apply the transition it returns; with an empty stack, request
`window::quit`.  The surrounding canvas/scaler calls do not touch the
modelled state. -/
def GameState.draw (g : GameState) : StepResult :=
  match g.scenes.getLast? with
  | some top =>
    let r := top.draw g.world
    { state := { g with
        world := r.2.1
        scenes := applyTransition r.2.2 (g.scenes.dropLast ++ [r.1]) }
      quit := false
      callbackTargets := [g.scenes.length - 1] }
  | Option.none =>
    { state := g, quit := true, callbackTargets := [] }

/-- One engine callback in a frame: tetra calls `update` (with the current
space-key state) or `draw`. -/
inductive FrameAction
  | update (spacePressed : Bool)
  | draw

/-- Run one callback, keeping the resulting state. -/
def runAction (g : GameState) : FrameAction → GameState
  | FrameAction.update sp => (g.update sp).state
  | FrameAction.draw => g.draw.state

/-- Run a sequence of engine callbacks. -/
def runActions (g : GameState) (as : List FrameAction) : GameState :=
  as.foldl runAction g

/-- Rewrite every entity's `Static` tag according to its id (used to state
that the tag never influences behaviour). -/
def mapStatic (f : Nat → Bool) (w : World) : World :=
  w.map (fun e => { e with isStatic := f e.id })

/-- The tag-free view of a world: ids with their `Position` and `Health`
components. -/
def stripStatic (w : World) : List (Nat × Option Position × Option Health) :=
  w.map (fun e => (e.id, e.position, e.health))

/-! ## Helper lemmas -/

/-- `moveStep` rewrites the `Position` component and nothing else. -/
theorem moveStep_fields (e : Entity) :
    (moveStep e).id = e.id ∧ (moveStep e).health = e.health ∧
    (moveStep e).isStatic = e.isStatic ∧
    (moveStep e).position = e.position.map (fun p => { x := p.x + 1, y := p.y + 1 }) := by
  cases hp : e.position <;> simp [moveStep, hp]

/-- A scene's `update` leaves the scene's kind alone, and on a pressed
space bar leaves the scene record itself alone. -/
theorem Scene.update_space (s : Scene) (w : World) :
    (s.update true w).1 = s := by
  cases hk : s.kind <;> simp [Scene.update, hk]

/-! ## C4 -/

/-- C4: applying a `Transition` to a non-empty scene stack has exactly the
stated effects: `None` leaves the stack unchanged; `Push s` appends `s` as
the new top while every previously present scene stays, unchanged and in
order, beneath it (the requester directly beneath `s`); `Pop` removes
exactly the top scene and leaves all the others unchanged. -/
theorem applyTransition_effects (ss : List Scene) (s : Scene) (h : ss ≠ []) :
    applyTransition Transition.none ss = ss ∧
    applyTransition (Transition.push s) ss = ss ++ [s] ∧
    (applyTransition (Transition.push s) ss).getLast? = some s ∧
    (applyTransition (Transition.push s) ss).dropLast = ss ∧
    applyTransition Transition.pop ss ++ [ss.getLast h] = ss ∧
    (applyTransition Transition.pop ss).length = ss.length - 1 := by
  refine ⟨rfl, rfl, ?_, ?_, ?_, ?_⟩
  · simp [applyTransition]
  · simp [applyTransition]
  · simpa [applyTransition] using List.dropLast_append_getLast h
  · simp [applyTransition]

/-- Witness for C4 at the singleton stack holding the initial scene. -/
theorem applyTransition_effects_witness :
    ([TestScene.init] : List Scene) ≠ [] ∧
    applyTransition Transition.pop [TestScene.init] ++
      [List.getLast [TestScene.init] (by decide)] = [TestScene.init] :=
  ⟨by decide,
   (applyTransition_effects [TestScene.init] TestScene2.init (by decide)).2.2.2.2.1⟩

/-! ## C10 -/

/-- C10: drawing never mutates the scene stack: both scene types return
`Transition::None` from `draw`, so `GameState::draw` leaves the scene
stack exactly as it was (even though it contains handling for `Push` and
`Pop`). -/
theorem draw_leaves_stack (s : Scene) (w : World) (g : GameState) :
    (s.draw w).2.2 = Transition.none ∧ (g.draw).state.scenes = g.scenes := by
  refine ⟨rfl, ?_⟩
  cases hl : g.scenes.getLast? with
  | none => simp [GameState.draw, hl]
  | some top =>
    simp only [GameState.draw, hl, Scene.draw, applyTransition]
    exact List.dropLast_append_getLast? top hl

/-! ## C3 -/

/-- C3: on a frame with a non-empty scene stack, exactly one scene receives
the `update` callback and exactly one receives the `draw` callback, and in
both cases it is the top (last) scene of the stack: the invoked indices are
exactly `[length - 1]`, the index of the last element. -/
theorem top_scene_only_callbacks (g : GameState) (sp : Bool) (h : g.scenes ≠ []) :
    (g.update sp).callbackTargets = [g.scenes.length - 1] ∧
    (g.draw).callbackTargets = [g.scenes.length - 1] ∧
    g.scenes.getLast? = some (g.scenes.getLast h) := by
  have hl := List.getLast?_eq_getLast_of_ne_nil h
  refine ⟨?_, ?_, hl⟩ <;> simp [GameState.update, GameState.draw, hl]

/-- Witness for C3 at the initial game state. -/
theorem top_scene_only_callbacks_witness :
    GameState.new.scenes ≠ [] ∧
    (GameState.new.update false).callbackTargets = [GameState.new.scenes.length - 1] :=
  ⟨by decide, (top_scene_only_callbacks GameState.new false (by decide)).1⟩

/-! ## C8 -/

/-- C8: once the scene stack is empty it never becomes non-empty again:
after any further sequence of engine callbacks the stack is still empty,
and each single `update` or `draw` call from such a state performs no push
or pop (the stack stays empty) and requests that the window quit. -/
theorem empty_stack_forever (g : GameState) (h : g.scenes = [])
    (as : List FrameAction) (sp : Bool) :
    (runActions g as).scenes = [] ∧
    ((runActions g as).update sp).state.scenes = [] ∧
    ((runActions g as).update sp).quit = true ∧
    ((runActions g as).draw).state.scenes = [] ∧
    ((runActions g as).draw).quit = true := by
  have key : ∀ g' : GameState, g'.scenes = [] →
      (∀ sp' : Bool,
        (g'.update sp').state.scenes = [] ∧ (g'.update sp').quit = true) ∧
      ((g'.draw).state.scenes = [] ∧ (g'.draw).quit = true) := by
    intro g' h'
    have hl : g'.scenes.getLast? = Option.none := by simp [h']
    refine ⟨fun sp' => ⟨?_, ?_⟩, ?_, ?_⟩ <;> simp [GameState.update, GameState.draw, hl, h']
  have main : ∀ (as' : List FrameAction) (g' : GameState),
      g'.scenes = [] → (runActions g' as').scenes = [] := by
    intro as'
    induction as' with
    | nil => intro g' h'; simpa [runActions] using h'
    | cons a t ih =>
      intro g' h'
      cases a with
      | update sp' =>
        have h2 := ((key g' h').1 sp').1
        simpa [runActions, runAction] using ih _ h2
      | draw =>
        have h2 := (key g' h').2.1
        simpa [runActions, runAction] using ih _ h2
  have hrun := main as g h
  exact ⟨hrun, ((key _ hrun).1 sp).1, ((key _ hrun).1 sp).2,
    (key _ hrun).2.1, (key _ hrun).2.2⟩

/-- Witness for C8 at a state with an empty stack, stepped through an
update and a draw. -/
theorem empty_stack_forever_witness :
    ({ world := [], systems := [], scenes := [] } : GameState).scenes = [] ∧
    (runActions { world := [], systems := [], scenes := [] }
      [FrameAction.update true, FrameAction.draw]).scenes = [] :=
  ⟨rfl, (empty_stack_forever { world := [], systems := [], scenes := [] } rfl
    [FrameAction.update true, FrameAction.draw] false).1⟩

/-! ## C5 -/

/-- C5: one execution of the movement system returned by
`simple_test_system` adds exactly 1 to `x` and exactly 1 to `y` of the
`Position` of every entity that has one (entities without a `Position` are
untouched, and no entities appear or disappear), and it is the only system
returned by `create_systems`. -/
theorem simple_test_system_increments (w : World) :
    create_systems = [simple_test_system] ∧
    (simple_test_system w).length = w.length ∧
    ∀ i : Nat, ((simple_test_system w)[i]?).map Entity.position =
      (w[i]?).map (fun e =>
        e.position.map (fun p => { x := p.x + 1, y := p.y + 1 })) := by
  refine ⟨rfl, by simp [simple_test_system], ?_⟩
  intro i
  simp only [simple_test_system, List.getElem?_map, Option.map_map]
  cases hw : w[i]? with
  | none => rfl
  | some e =>
    show some ((moveStep e).position) =
      some (e.position.map (fun p => { x := p.x + 1, y := p.y + 1 }))
    exact congrArg some (moveStep_fields e).2.2.2

/-! ## C9 -/

/-- C9: the movement system modifies only `Position` components: one
execution preserves every entity's id (so no entity is created or
destroyed and membership in the world is unchanged), its `Health`
component (both fields), and its `Static` tag. -/
theorem simple_test_system_frame (w : World) :
    (simple_test_system w).length = w.length ∧
    (simple_test_system w).map Entity.id = w.map Entity.id ∧
    (simple_test_system w).map Entity.health = w.map Entity.health ∧
    (simple_test_system w).map Entity.isStatic = w.map Entity.isStatic := by
  refine ⟨by simp [simple_test_system], ?_, ?_, ?_⟩ <;>
  · simp only [simple_test_system, List.map_map]
    apply List.map_congr_left
    intro e _
    first
    | exact (moveStep_fields e).1
    | exact (moveStep_fields e).2.1
    | exact (moveStep_fields e).2.2.1

/-! ## C1 -/

set_option maxRecDepth 8000 in
/-- C1 counterexample: in the game as constructed (`GameState::new` builds
the executor from an empty vector and `set_systems` is never called), a
frame's `update` does not increment positions: the first entity's
`Position` is `(0, 0)` before the frame and still `(0, 0)` after it, not
`(1, 1)`. -/
theorem update_increments_positions_cex :
    GameState.new.world.head?.map Entity.position = some (some { x := 0, y := 0 }) ∧
    (GameState.new.update false).state.world.head?.map Entity.position
      = some (some { x := 0, y := 0 }) ∧
    (some { x := 0, y := 0 } : Option Position) ≠ some { x := 1, y := 1 } := by
  refine ⟨rfl, rfl, by decide⟩

/-- C1 as amended: `GameState::update` leaves the `Position` of every
entity already in the world unchanged, because the executor holds no
systems (`GameState::new` passes `vec![]` and `set_systems` is never
called); in particular no position is incremented. -/
theorem update_preserves_positions (g : GameState) (sp : Bool)
    (hs : g.systems = []) :
    GameState.new.systems = [] ∧
    (g.update sp).state.world.take g.world.length = g.world := by
  refine ⟨rfl, ?_⟩
  have hE : Executor.execute g.systems g.world = g.world := by
    simp [hs, Executor.execute]
  cases hl : g.scenes.getLast? with
  | none => simp [GameState.update, hl, hE]
  | some top =>
    cases hk : top.kind <;> cases sp <;>
      simp [GameState.update, hl, hE, Scene.update, hk, TestScene.new,
        TestScene2.new, spawnTestEntities, List.append_assoc, List.take_left']

/-- Witness for C1 (amended) at the initial game state. -/
theorem update_preserves_positions_witness :
    GameState.new.systems = [] ∧
    (GameState.new.update false).state.world.take GameState.new.world.length
      = GameState.new.world :=
  ⟨rfl, (update_preserves_positions GameState.new false rfl).2⟩

/-! ## C2 -/

/-- C2 counterexample: pressing space on the initial frame does not swap
the active scene in place: the stack grows from 1 scene to 2 (the new
`TestScene2` is pushed on top of the suspended `TestScene`), so the number
of scenes on the stack is not the same after the update as before it. -/
theorem space_swap_keeps_size_cex :
    GameState.new.scenes.length = 1 ∧
    (GameState.new.update true).state.scenes.length = 2 ∧
    ((GameState.new.update true).state.scenes.getLast?).map Scene.kind
      = some SceneKind.testScene2 := by
  refine ⟨rfl, rfl, rfl⟩

/-- C2 as amended: on a frame in which the spacebar is pressed while a test
scene is on top, the update pushes the other test scene: the previous stack
is kept whole (its former top directly beneath the new scene), the new top
is the other scene type, and the stack grows by exactly one. -/
theorem space_pushes_other_scene (g : GameState) (h : g.scenes ≠ []) :
    (g.update true).state.scenes =
      g.scenes ++ [if (g.scenes.getLast h).kind = SceneKind.testScene
                   then TestScene2.init else TestScene.init] ∧
    (g.update true).state.scenes.length = g.scenes.length + 1 := by
  have hl := List.getLast?_eq_getLast_of_ne_nil h
  have hd : g.scenes.dropLast ++ [g.scenes.getLast h] = g.scenes :=
    List.dropLast_append_getLast h
  have hmain : (g.update true).state.scenes =
      g.scenes ++ [if (g.scenes.getLast h).kind = SceneKind.testScene
                   then TestScene2.init else TestScene.init] := by
    cases hk : (g.scenes.getLast h).kind <;>
      simp [GameState.update, hl, Scene.update, hk, TestScene.new,
        TestScene2.new, applyTransition, hd]
  exact ⟨hmain, by simp [hmain]⟩

/-- Witness for C2 (amended) at the initial game state. -/
theorem space_pushes_other_scene_witness :
    GameState.new.scenes ≠ [] ∧
    (GameState.new.update true).state.scenes.length
      = GameState.new.scenes.length + 1 :=
  ⟨by decide, (space_pushes_other_scene GameState.new (by decide)).2⟩

/-! ## C6 -/

set_option maxRecDepth 8000 in
/-- C6 counterexample: the entities spawned by `TestScene::new` are not
empty: 1998 are spawned (999 + 999, close to 2000), but already the first
one carries a `Position` component record. -/
theorem spawn_empty_entities_cex :
    (spawnTestEntities []).length = 1998 ∧
    (spawnTestEntities []).head?.map Entity.position
      = some (some { x := 0, y := 0 }) := by
  constructor
  · simp [spawnTestEntities]
  · rfl

/-- C6 as amended: `TestScene::new` spawns 1998 entities (999 + 999,
approximately 2000), none of them empty: entity `w.length + i` (for
`i < 999`) carries `Position { x: 0, y: 0 }` and
`Health { hp: 0, last_damaged_by: 0 }` and no `Static` tag, and entity
`w.length + 999 + i` carries `Position { x: 0, y: 0 }`, no `Health`, and
the `Static` tag; the entities already present are untouched. -/
theorem spawnTestEntities_spec (w : World) :
    (spawnTestEntities w).length = w.length + 1998 ∧
    (spawnTestEntities w).take w.length = w ∧
    ∀ i : Nat, i < 999 →
      (spawnTestEntities w)[w.length + i]? =
        some { id := w.length + i, position := some { x := 0, y := 0 },
               health := some { hp := 0, last_damaged_by := 0 },
               isStatic := false } ∧
      (spawnTestEntities w)[w.length + 999 + i]? =
        some { id := w.length + 999 + i, position := some { x := 0, y := 0 },
               health := Option.none, isStatic := true } := by
  refine ⟨by simp [spawnTestEntities], ?_, ?_⟩
  · simp [spawnTestEntities, List.append_assoc, List.take_left']
  · intro i hi
    constructor
    · rw [spawnTestEntities, List.getElem?_append_left, List.getElem?_append_right]
      · simp [List.getElem?_range hi]
      · simp
      · simp [hi]
    · rw [spawnTestEntities, List.getElem?_append_right]
      · simp [Nat.add_assoc]
        have harith : List.length w + (999 + i) - (List.length w + 999) = i := by
          omega
        rw [harith, List.getElem?_range hi]
      · simp

/-- Witness for C6 (amended): the first spawned entity into the empty
world. -/
theorem spawnTestEntities_spec_witness :
    (0 : Nat) < 999 ∧
    (spawnTestEntities [])[(0 : Nat)]? =
      some { id := 0, position := some { x := 0, y := 0 },
             health := some { hp := 0, last_damaged_by := 0 },
             isStatic := false } :=
  ⟨by decide, ((spawnTestEntities_spec []).2.2 0 (by decide)).1⟩

/-! ## C7 -/

/-- Rewriting the `Static` tags does not change the tag-free view of a
world. -/
theorem stripStatic_mapStatic (f : Nat → Bool) (w : World) :
    stripStatic (mapStatic f w) = stripStatic w := by
  simp only [stripStatic, mapStatic, List.map_map]
  apply List.map_congr_left
  intro e _
  rfl

/-- Rewriting the `Static` tags does not change the entity ids. -/
theorem mapStatic_ids (f : Nat → Bool) (w : World) :
    (mapStatic f w).map Entity.id = w.map Entity.id := by
  simp only [mapStatic, List.map_map]
  apply List.map_congr_left
  intro e _
  rfl

/-- The movement system commutes with rewriting the `Static` tags: its
query selects on `Position` only. -/
theorem simple_test_system_mapStatic (f : Nat → Bool) (w : World) :
    simple_test_system (mapStatic f w) = mapStatic f (simple_test_system w) := by
  simp only [simple_test_system, mapStatic, List.map_map]
  apply List.map_congr_left
  intro e _
  cases hp : e.position <;> simp [Function.comp, moveStep, hp]

/-- The tag-free view distributes over appending worlds. -/
theorem stripStatic_append (a b : World) :
    stripStatic (a ++ b) = stripStatic a ++ stripStatic b := by
  simp [stripStatic]

/-- Entity spawning reads nothing from the `Static` tags: the tag-free view
of the post-spawn world is the same whatever the tags were. -/
theorem stripStatic_spawnTestEntities (f : Nat → Bool) (w : World) :
    stripStatic (spawnTestEntities (mapStatic f w))
      = stripStatic (spawnTestEntities w) := by
  have hlen : (mapStatic f w).length = w.length := by simp [mapStatic]
  unfold spawnTestEntities
  rw [hlen]
  simp only [stripStatic_append, stripStatic_mapStatic]

/-- A scene's `update` never reads the `Static` tags: the resulting scene
and transition are identical, and the resulting world identical up to its
tags, whatever the tags of the input world were. -/
theorem Scene.update_mapStatic (s : Scene) (sp : Bool) (f : Nat → Bool)
    (w : World) :
    (s.update sp (mapStatic f w)).1 = (s.update sp w).1 ∧
    stripStatic (s.update sp (mapStatic f w)).2.1
      = stripStatic (s.update sp w).2.1 ∧
    (s.update sp (mapStatic f w)).2.2 = (s.update sp w).2.2 := by
  cases hk : s.kind <;> cases sp <;>
    simp [Scene.update, hk, TestScene.new, TestScene2.new,
      stripStatic_mapStatic, stripStatic_spawnTestEntities, mapStatic_ids]

/-- C7: nothing in the program filters or branches on the `Static` tag:
with the executor as the program ever configures it (empty, or the
`create_systems` vector), a full `GameState::update` from the same state
with arbitrarily rewritten `Static` tags produces the same scene stack, the
same quit flag, and the same world up to the (unread) tags.  In particular
every entity with a `Position` is treated the same with or without the
tag. -/
theorem static_tag_unused (g : GameState) (f : Nat → Bool) (sp : Bool)
    (hs : g.systems = [] ∨ g.systems = create_systems) :
    stripStatic (GameState.update { g with world := mapStatic f g.world } sp).state.world
      = stripStatic (g.update sp).state.world ∧
    (GameState.update { g with world := mapStatic f g.world } sp).state.scenes
      = (g.update sp).state.scenes ∧
    (GameState.update { g with world := mapStatic f g.world } sp).quit
      = (g.update sp).quit := by
  have hexec : Executor.execute g.systems (mapStatic f g.world)
      = mapStatic f (Executor.execute g.systems g.world) := by
    cases hs with
    | inl h0 => simp [h0, Executor.execute]
    | inr h1 =>
      simp [h1, Executor.execute, create_systems,
        simple_test_system_mapStatic]
  cases hl : g.scenes.getLast? with
  | none =>
    refine ⟨?_, ?_, ?_⟩ <;>
      simp [GameState.update, hl, hexec, stripStatic_mapStatic]
  | some top =>
    have hupd := Scene.update_mapStatic top sp f
      (Executor.execute g.systems g.world)
    refine ⟨?_, ?_, ?_⟩ <;>
      simp [GameState.update, hl, hexec, hupd.1, hupd.2.1, hupd.2.2]

/-- Witness for C7 at the initial game state (whose executor is empty),
setting every entity's tag. -/
theorem static_tag_unused_witness :
    (GameState.new.systems = [] ∨ GameState.new.systems = create_systems) ∧
    (GameState.update { GameState.new with
        world := mapStatic (fun _ => true) GameState.new.world } true).state.scenes
      = (GameState.new.update true).state.scenes :=
  ⟨Or.inl rfl,
   (static_tag_unused GameState.new (fun _ => true) true (Or.inl rfl)).2.1⟩
